import Mathlib

/-!
Verification of the Course-Recommendation-System repository.

This file shallowly embeds the Python modules relevant to the checked
claims:

* `RequirementsAnalysis/RequirementsTreeTraveller.py` — eligibility
  evaluation over the relational requirement tree (`req_groups`,
  `individual_reqs` tables);
* `RequirementsAnalysis/RequirementsTreeSeed.py` — document validation and
  the bulk loader that materializes extracted requirement documents as rows;
* `CourseSearchEngine/CourseSearcher.py` — query expansion and BM25-style
  search;
* `api_server.py` — the thin HTTP handlers composing the two.

SQLite tables are modelled as Lean lists of row structures; `ORDER BY` is
modelled by an explicit stable insertion sort; autoincrement ids are
modelled by an explicit next-id counter.  Python `None` becomes `Option`,
exceptions become `Except String`.
-/

namespace CourseRec

/-- A row of the `individual_reqs` table: an atomic eligibility predicate. -/
structure IndividualReqRow where
  id : Nat
  type : String
  operator : String
  value : String
deriving Repr, DecidableEq

/-- A row of the `req_groups` table: one node of a per-course requirement
tree (`parent_id` is NULL for the root, `individual_id` is set for
CONDITION leaves). -/
structure ReqGroupRow where
  id : Nat
  course : String
  parent_id : Option Nat
  type : String
  individual_id : Option Nat
  position : Nat
deriving Repr, DecidableEq

/-- The columns of the `courses` table read by the traveller. -/
structure CourseRow where
  code : String
  subject : String
deriving Repr, DecidableEq

/-- The relational tables read by `RequirementsTreeTraveller`. -/
structure ReqDB where
  courses : List CourseRow
  req_groups : List ReqGroupRow
  individual_reqs : List IndividualReqRow
deriving Repr, DecidableEq

/-- Stable insertion step for `sortLeB`: `x` is placed before the first
element `y` with `le x y`. -/
def insertLeB (le : α → α → Bool) (x : α) : List α → List α
  | [] => [x]
  | y :: ys => if le x y then x :: y :: ys else y :: insertLeB le x ys

/-- Stable insertion sort, modelling SQL `ORDER BY` on a list of rows. -/
def sortLeB (le : α → α → Bool) : List α → List α
  | [] => []
  | x :: xs => insertLeB le x (sortLeB le xs)

/-- `_get_child_groups`: rows whose `parent_id` equals the given id,
ordered by `position` (`SELECT ... WHERE parent_id = ? ORDER BY position`). -/
def getChildGroups (db : ReqDB) (parentId : Nat) : List ReqGroupRow :=
  sortLeB (fun a b => a.position ≤ b.position)
    (db.req_groups.filter (fun r => r.parent_id == some parentId))

/-- `_get_root_requirement_group`: the first row (by position) for the
course with NULL `parent_id` (`... WHERE course = ? AND parent_id IS NULL
ORDER BY position`, first row fetched). -/
def getRootRequirementGroup (db : ReqDB) (course : String) : Option ReqGroupRow :=
  (sortLeB (fun a b => a.position ≤ b.position)
    (db.req_groups.filter (fun r => r.course == course && r.parent_id == none))).head?

/-- `_get_individual_requirement`: look up an `individual_reqs` row by id;
a NULL id (`Option.none`) matches no row, as in SQL `id = NULL`. -/
def getIndividualRequirement (db : ReqDB) (individualId : Option Nat) :
    Option IndividualReqRow :=
  match individualId with
  | none => none
  | some i => db.individual_reqs.find? (fun r => r.id == i)

/-- The traveller's `level_to_term` rank map; unknown levels rank 0
(`dict.get(level, 0)`). -/
def levelToTerm (level : String) : Nat :=
  if level = "1A" then 1
  else if level = "1B" then 2
  else if level = "2A" then 3
  else if level = "2B" then 4
  else if level = "3A" then 5
  else if level = "3B" then 6
  else if level = "4A" then 7
  else if level = "4B" then 8
  else 0

/-- `_level_greater_equal`. -/
def levelGreaterEqual (currentLevel requiredLevel : String) : Bool :=
  levelToTerm currentLevel ≥ levelToTerm requiredLevel

/-- Python `minor == value` where `minor` may be `None` and `value` is a
string: `None` never equals a string. -/
def minorEquals (minor : Option String) (value : String) : Bool :=
  match minor with
  | some m => m == value
  | none => false

/-- `_evaluate_condition`: evaluate a leaf predicate against the student
profile; unknown type/operator combinations are not satisfied. -/
def evaluateCondition (db : ReqDB) (individualId : Option Nat)
    (program level : String) (minor : Option String) : Bool :=
  match getIndividualRequirement db individualId with
  | none => false
  | some req =>
    if req.type = "PROGRAM" then
      if req.operator = "=" then program == req.value
      else if req.operator = "!=" then program != req.value
      else false
    else if req.type = "LEVEL" then
      if req.operator = "=" then level == req.value
      else if req.operator = ">=" then levelGreaterEqual level req.value
      else false
    else if req.type = "MINOR" then
      if req.operator = "=" then minorEquals minor req.value
      else false
    else false

/-- Short-circuiting `all(...)` over fuel-indexed evaluations: stops at the
first `some false`; `none` (fuel exhaustion) propagates. -/
def evalListAll (f : α → Option Bool) : List α → Option Bool
  | [] => some true
  | x :: xs =>
    match f x with
    | none => none
    | some false => some false
    | some true => evalListAll f xs

/-- Short-circuiting `any(...)`, dually. -/
def evalListAny (f : α → Option Bool) : List α → Option Bool
  | [] => some false
  | x :: xs =>
    match f x with
    | none => none
    | some true => some true
    | some false => evalListAny f xs

/-- `_evaluate_requirement_group`, fuel-indexed (the Python recursion
terminates on tree-shaped tables; `none` models exhausting the recursion
depth budget). -/
def evaluateRequirementGroup (db : ReqDB) :
    Nat → ReqGroupRow → String → String → Option String → Option Bool
  | 0, _, _, _, _ => none
  | fuel + 1, group, program, level, minor =>
    if group.type = "CONDITION" then
      some (evaluateCondition db group.individual_id program level minor)
    else
      match getChildGroups db group.id with
      | [] => some true
      | c :: cs =>
        if c.type = "CONDITION" then
          match getIndividualRequirement db c.individual_id with
          | none => some true
          | some _ =>
            evalListAny
              (fun child => evaluateRequirementGroup db fuel child program level minor)
              (c :: cs)
        else
          if group.type = "AND" then
            evalListAll
              (fun child => evaluateRequirementGroup db fuel child program level minor)
              (c :: cs)
          else
            evalListAny
              (fun child => evaluateRequirementGroup db fuel child program level minor)
              (c :: cs)

/-- Data-model invariant (§3 of the spec): every stored CONDITION node's
`individual_id` resolves to an existing `individual_reqs` row. -/
abbrev conditionNodesResolve (db : ReqDB) : Prop :=
  ∀ r ∈ db.req_groups, r.type = "CONDITION" →
    (getIndividualRequirement db r.individual_id).isSome

/-- Concrete store for the C1 witness: an AND root whose first child is a
CONDITION leaf, so the forced-OR rule applies. -/
def dbForcedOr : ReqDB :=
  ⟨[],
   [⟨1, "SE 101", none, "AND", none, 0⟩,
    ⟨2, "SE 101", some 1, "CONDITION", some 1, 0⟩,
    ⟨3, "SE 101", some 1, "CONDITION", some 2, 1⟩],
   [⟨1, "LEVEL", ">=", "2A"⟩,
    ⟨2, "PROGRAM", "=", "Software Engineering"⟩]⟩

/-- The traveller's `valid_levels` list. -/
def validLevels : List String :=
  ["1A", "1B", "2A", "2B", "3A", "3B", "4A", "4B"]

/-- Python `str.lower()`: lower-case every character. -/
def strLower (s : String) : String :=
  String.mk (s.data.map Char.toLower)

/-- `_validate_inputs`: case-insensitive program match, exact term match,
non-blank minor when supplied. -/
def validateInputs (validPrograms : List String) (program term : String)
    (minor : Option String) : Bool :=
  if ¬ (validPrograms.any fun p => strLower program == strLower p) then false
  else if ¬ (term ∈ validLevels) then false
  else if (match minor with
           | some m => decide (m.trim = "")
           | none => false) then false
  else true

/-- The 14-subject engineering allow-list used by
`_get_courses_with_requirements` (and by the index builder). -/
def engineeringSubjects : List String :=
  ["AE", "ARCH", "BME", "CHE", "ECE", "ENVE", "GENE", "GEOE", "ME", "MSE",
   "MTE", "NE", "SE", "SYDE"]

/-- `_get_courses_with_requirements`: codes of courses in the allow-listed
subjects, ordered by code. -/
def getCoursesWithRequirements (db : ReqDB) : List String :=
  (sortLeB (fun a b => a.code ≤ b.code)
    (db.courses.filter fun c => engineeringSubjects.contains c.subject)).map
    (fun c => c.code)

/-- `_can_take_course`: false when the course has no root group, otherwise
the root group's evaluation. -/
def canTakeCourse (db : ReqDB) (fuel : Nat) (course program level : String)
    (minor : Option String) : Option Bool :=
  match getRootRequirementGroup db course with
  | none => some false
  | some root => evaluateRequirementGroup db fuel root program level minor

/-- The eligibility filter loop of `get_available_courses`, threading the
fuel-exhaustion case through `Option`. -/
def filterCanTake (db : ReqDB) (fuel : Nat) (program level : String)
    (minor : Option String) : List String → Option (List String)
  | [] => some []
  | c :: cs =>
    match canTakeCourse db fuel c program level minor with
    | none => none
    | some b =>
      match filterCanTake db fuel program level minor cs with
      | none => none
      | some rest => some (if b then c :: rest else rest)

/-- `get_available_courses`: validate inputs (returning `[]` on failure),
then keep every allow-listed course whose tree is satisfied, sorted. -/
def getAvailableCourses (validPrograms : List String) (db : ReqDB)
    (fuel : Nat) (program term : String) (minor : Option String) :
    Option (List String) :=
  if validateInputs validPrograms program term minor then
    match filterCanTake db fuel program term minor
        (getCoursesWithRequirements db) with
    | none => none
    | some available => some (sortLeB (fun a b => a ≤ b) available)
  else some []

/-- The valid engineering programs: the result of `_load_valid_programs`
(`SELECT DISTINCT name FROM programs WHERE faculty LIKE '%Engineering%'
ORDER BY name`) over the table seeded by `ProgramsSeed` — the catalog
entries whose faculty contains "Engineering", in name order. -/
def seededEngineeringPrograms : List String :=
  ["Architectural Engineering", "Architecture", "Biomedical Engineering",
   "Chemical Engineering", "Civil Engineering", "Computer Engineering",
   "Electrical Engineering", "Environmental Engineering",
   "Geological Engineering", "Management Engineering",
   "Mechanical Engineering", "Mechatronics Engineering",
   "Software Engineering", "Systems Design Engineering"]

/-- A reconstructed requirement document as produced by
`get_course_requirements`: either a leaf condition dict or a group dict. -/
inductive ReqTree where
  | condition (type operator value : String)
  | group (operator : String) (conditions : List ReqTree)
deriving Repr

/-- `_build_requirements_tree`, fuel-indexed: the outer `none` is fuel
exhaustion, the inner `none` is the Python `None` result (missing leaf row,
no children, or all children rebuilt to `None`). -/
def buildRequirementsTree (db : ReqDB) : Nat → ReqGroupRow → Option (Option ReqTree)
  | 0, _ => none
  | fuel + 1, group =>
    if group.type = "CONDITION" then
      match getIndividualRequirement db group.individual_id with
      | some req => some (some (ReqTree.condition req.type req.operator req.value))
      | none => some none
    else
      match getChildGroups db group.id with
      | [] => some none
      | c :: cs =>
        match (c :: cs).foldl
            (fun acc child =>
              match acc with
              | none => none
              | some conditions =>
                match buildRequirementsTree db fuel child with
                | none => none
                | some (some tree) => some (conditions ++ [tree])
                | some none => some conditions)
            (some ([] : List ReqTree)) with
        | none => none
        | some [] => some none
        | some (t :: ts) =>
          some (some (ReqTree.group
            (if group.type = "AND" ∨ group.type = "OR" then "OR" else group.type)
            (t :: ts)))

/-- `get_course_requirements`: `None` when the course has no root group,
otherwise the rebuilt tree. -/
def getCourseRequirements (db : ReqDB) (fuel : Nat) (course : String) :
    Option (Option ReqTree) :=
  match getRootRequirementGroup db course with
  | none => some none
  | some root => buildRequirementsTree db fuel root

/-- Store for the C9 counterexample: an AND root whose only (first) child
is an OR group node, not a CONDITION. -/
def dbNestedGroup : ReqDB :=
  ⟨[],
   [⟨1, "ECE 200", none, "AND", none, 0⟩,
    ⟨2, "ECE 200", some 1, "OR", none, 0⟩,
    ⟨3, "ECE 200", some 2, "CONDITION", some 1, 0⟩],
   [⟨1, "LEVEL", ">=", "2A"⟩]⟩

/-- Loosely-typed JSON values, the input domain of the requirement
validator in `RequirementsTreeSeed.py`. -/
inductive Json where
  | null
  | bool (b : Bool)
  | num (n : Int)
  | str (s : String)
  | arr (elements : List Json)
  | obj (fields : List (String × Json))

/-- Python `isinstance(x, dict)`. -/
def jsonIsDict : Json → Bool
  | .obj _ => true
  | _ => false

/-- Python `x is None`. -/
def jsonIsNull : Json → Bool
  | .null => true
  | _ => false

/-- Python `key in d` on a JSON object's fields. -/
def jsonHasKey (fields : List (String × Json)) (key : String) : Bool :=
  fields.any (fun kv => kv.1 == key)

/-- Python `d[key]` / `d.get(key)` on a JSON object's fields. -/
def jsonGet (fields : List (String × Json)) (key : String) : Option Json :=
  (fields.find? (fun kv => kv.1 == key)).map (fun kv => kv.2)

/-- Python `d[key] in ["AND", "OR"]`. -/
def jsonOperatorIsAndOr (fields : List (String × Json)) : Bool :=
  match jsonGet fields "operator" with
  | some (.str op) => op == "AND" || op == "OR"
  | _ => false

/-- `_validate_condition`: a nested group (both `operator` and
`conditions` keys) validates its operator and recursively its conditions;
otherwise a leaf must have exactly valid `type`, type-dependent `operator`
and string `value` (LEVEL values among the eight levels, PROGRAM values
among the valid programs). Fuel-indexed; `false` at fuel 0 (the Python
recursion terminates on any finite document). -/
def validateCondition (validPrograms : List String) : Nat → Json → Bool
  | 0, _ => false
  | fuel + 1, condition =>
    match condition with
    | .obj fields =>
      if jsonHasKey fields "operator" && jsonHasKey fields "conditions" then
        if ¬ jsonOperatorIsAndOr fields then false
        else
          match jsonGet fields "conditions" with
          | some (.arr elements) =>
            elements.all (fun nested => validateCondition validPrograms fuel nested)
          | _ => false
      else if ¬ (jsonHasKey fields "type" && jsonHasKey fields "operator" &&
                 jsonHasKey fields "value") then false
      else
        match jsonGet fields "type" with
        | some (.str t) =>
          if ¬ (t = "PROGRAM" ∨ t = "LEVEL" ∨ t = "MINOR") then false
          else
            match jsonGet fields "operator" with
            | some (.str op) =>
              if ¬ ((if t = "PROGRAM" then ["=", "!="]
                     else if t = "LEVEL" then ["=", ">="]
                     else ["="]).contains op) then false
              else
                match jsonGet fields "value" with
                | some (.str v) =>
                  if t = "LEVEL" ∧ ¬ validLevels.contains v then false
                  else if t = "PROGRAM" ∧ ¬ validPrograms.contains v then false
                  else true
                | _ => false
            | _ => false
        | _ => false
    | _ => false

/-- `_validate_requirements_structure`: the `isinstance(requirements,
dict)` rejection comes first, then the (consequently unreachable)
`requirements is None` acceptance, then the operator/conditions checks. -/
def validateRequirementsStructure (validPrograms : List String) (fuel : Nat)
    (requirements : Json) : Bool :=
  if ¬ jsonIsDict requirements then false
  else if jsonIsNull requirements then true
  else
    match requirements with
    | .obj fields =>
      if ¬ jsonHasKey fields "operator" then false
      else if ¬ jsonOperatorIsAndOr fields then false
      else if ¬ jsonHasKey fields "conditions" then false
      else
        match jsonGet fields "conditions" with
        | some (.arr conditions) =>
          conditions.all (fun condition => validateCondition validPrograms fuel condition)
        | _ => false
    | _ => false

/-- A validated parsed requirement document, as loaded by the Requirement
Tree Store: a group dict `{operator, conditions}` or a leaf dict
`{type, operator, value}` (the loader's leaf test — presence of the
`type`/`operator`/`value` keys — corresponds to the `leaf` constructor). -/
inductive ReqDoc where
  | group (operator : String) (conditions : List ReqDoc)
  | leaf (type operator value : String)
deriving Repr

/-- A `(type, operator, value)` triple, the deduplication key of
`individual_reqs`. -/
abbrev ReqKey := String × String × String

/-- One pending row descriptor collected by `_collect_course_operations`:
`(course, parent_id, group_type, individual_key, position, temp_id)`. -/
structure PendingRow where
  course : String
  parent_id : Option Nat
  type : String
  individual_key : Option ReqKey
  position : Nat
  temp_id : Option Nat
deriving Repr, DecidableEq

/-- The two per-course accumulators of `_collect_course_operations`. -/
structure CollectAcc where
  individual_reqs : List ReqKey
  req_groups : List PendingRow
deriving Repr, DecidableEq

mutual

/-- `collect_group`: append this node's group row — its temporary id is
`1000000` plus the number of rows already collected for this course — then
walk its conditions.  For a top-level leaf (no `conditions` key) the
Python `group.get("operator")` yields the leaf's own operator and
`group.get("conditions", [])` is empty. -/
def collectGroup (cache : List (ReqKey × Nat)) (course : String) :
    ReqDoc → Option Nat → Nat → CollectAcc → CollectAcc
  | .group op conds, parent, position, acc =>
    let groupId := acc.req_groups.length + 1000000
    collectConditions cache course groupId conds 0
      { acc with req_groups :=
          acc.req_groups ++ [⟨course, parent, op, none, position, some groupId⟩] }
  | .leaf _ op _, parent, position, acc =>
    { acc with req_groups :=
        acc.req_groups ++
          [⟨course, parent, op, none, position,
            some (acc.req_groups.length + 1000000)⟩] }

/-- The `for i, condition in enumerate(conditions)` loop of
`collect_group`: a leaf appends its key (when not already cached) and its
CONDITION row; a nested group recurses. -/
def collectConditions (cache : List (ReqKey × Nat)) (course : String)
    (groupId : Nat) : List ReqDoc → Nat → CollectAcc → CollectAcc
  | [], _, acc => acc
  | c :: cs, i, acc =>
    let acc1 :=
      match c with
      | .leaf t op v =>
        let key : ReqKey := (t, op, v)
        let acc' :=
          if (cache.lookup key).isNone then
            { acc with individual_reqs := acc.individual_reqs ++ [key] }
          else acc
        { acc' with req_groups :=
            acc'.req_groups ++ [⟨course, some groupId, "CONDITION", some key, i, none⟩] }
      | .group _ _ => collectGroup cache course c (some groupId) i acc
    collectConditions cache course groupId cs (i + 1) acc1

end

/-- `_collect_course_operations`: run the collection for one course,
starting from empty per-course accumulators. -/
def collectCourseOperations (cache : List (ReqKey × Nat)) (course : String)
    (requirements : ReqDoc) : List ReqKey × List PendingRow :=
  let acc := collectGroup cache course requirements none 0 ⟨[], []⟩
  (acc.individual_reqs, acc.req_groups)

/-- The mutable store state of one bulk-load connection: the two tables
plus their autoincrement counters. -/
structure StoreDB where
  individual_reqs : List IndividualReqRow
  req_groups : List ReqGroupRow
  next_individual_id : Nat
  next_group_id : Nat
deriving Repr, DecidableEq

/-- One SQL statement execution under an injected fault schedule: the
`tick`-th statement fails with `faults tick` when that is set. -/
def sqlStep (faults : Nat → Option String) (st : StoreDB × Nat) :
    Except String (StoreDB × Nat) :=
  match faults st.2 with
  | some e => Except.error e
  | none => Except.ok (st.1, st.2 + 1)

/-- `n` consecutive statement executions that change no rows (used for the
row-batched `executemany` calls). -/
def sqlSteps (faults : Nat → Option String) :
    Nat → StoreDB × Nat → Except String (StoreDB × Nat)
  | 0, st => Except.ok st
  | n + 1, st =>
    match sqlStep faults st with
    | Except.error e => Except.error e
    | Except.ok st' => sqlSteps faults n st'

/-- `_load_individual_reqs_cache`: seed the key→id cache from the current
table contents. -/
def loadIndividualReqsCache (db : StoreDB) : List (ReqKey × Nat) :=
  db.individual_reqs.map (fun r => ((r.type, r.operator, r.value), r.id))

/-- Python `list(set(...))`, modelled as first-occurrence deduplication
(the set's iteration order is unspecified; no checked claim depends on this
order). -/
def dedupKeys (keys : List ReqKey) : List ReqKey :=
  keys.foldl (fun acc k => if acc.contains k then acc else acc ++ [k]) []

/-- `INSERT OR IGNORE INTO individual_reqs`: insert each key not already
present, assigning autoincrement ids. -/
def insertOrIgnoreKeys (db : StoreDB) (keys : List ReqKey) : StoreDB :=
  keys.foldl
    (fun db key =>
      if db.individual_reqs.any (fun r => (r.type, r.operator, r.value) == key) then db
      else
        { db with
          individual_reqs :=
            db.individual_reqs ++ [⟨db.next_individual_id, key.1, key.2.1, key.2.2⟩],
          next_individual_id := db.next_individual_id + 1 })
    db

/-- The id-resolution loop of `_bulk_insert_individual_reqs`: for each key
not in the cache, one `SELECT` resolves (and caches) its id. -/
def resolveKeys (faults : Nat → Option String) :
    List ReqKey → StoreDB × Nat → List (ReqKey × Nat) →
    Except String ((StoreDB × Nat) × List (ReqKey × Nat))
  | [], st, cache => Except.ok (st, cache)
  | k :: ks, st, cache =>
    if (cache.lookup k).isNone then
      match sqlStep faults st with
      | Except.error e => Except.error e
      | Except.ok st' =>
        match (st'.1.individual_reqs.find?
            (fun r => (r.type, r.operator, r.value) == k)).map (fun r => r.id) with
        | some i => resolveKeys faults ks st' (cache ++ [(k, i)])
        | none => resolveKeys faults ks st' cache
    else resolveKeys faults ks st cache

/-- `_bulk_insert_individual_reqs`: one `executemany` inserting the
deduplicated keys, then the resolution loop. -/
def bulkInsertIndividualReqs (faults : Nat → Option String)
    (allKeys : List ReqKey) (st : StoreDB × Nat) (cache : List (ReqKey × Nat)) :
    Except String ((StoreDB × Nat) × List (ReqKey × Nat)) :=
  let uniqueReqs := dedupKeys allKeys
  match sqlStep faults st with
  | Except.error e => Except.error e
  | Except.ok (db, tick) =>
    resolveKeys faults uniqueReqs (insertOrIgnoreKeys db uniqueReqs, tick) cache

/-- The group sort key of `_bulk_insert_req_groups`:
`(parent_id is not None, temp_id)` ascending — roots first, then by
temporary id. -/
def groupSortLe (a b : PendingRow) : Bool :=
  let ka : Nat × Nat := ((if a.parent_id.isSome then 1 else 0), a.temp_id.getD 0)
  let kb : Nat × Nat := ((if b.parent_id.isSome then 1 else 0), b.temp_id.getD 0)
  decide (ka.1 < kb.1 ∨ (ka.1 = kb.1 ∧ ka.2 ≤ kb.2))

/-- The group-insert loop: resolve the parent's temporary id in the shared
`temp_to_real_id` map (missing entries resolve to NULL), insert the row
with the next autoincrement id, and record `temp_id → real id` (newest
binding shadowing older ones, as Python dict assignment does). -/
def insertGroupRows (faults : Nat → Option String) :
    List PendingRow → StoreDB × Nat → List (Nat × Nat) →
    Except String ((StoreDB × Nat) × List (Nat × Nat))
  | [], st, tempMap => Except.ok (st, tempMap)
  | g :: gs, st, tempMap =>
    let realParent :=
      match g.parent_id with
      | some pt => tempMap.lookup pt
      | none => none
    match sqlStep faults st with
    | Except.error e => Except.error e
    | Except.ok (db, tick) =>
      let realId := db.next_group_id
      insertGroupRows faults gs
        ({ db with
            req_groups :=
              db.req_groups ++ [⟨realId, g.course, realParent, g.type, none, g.position⟩],
            next_group_id := realId + 1 },
          tick)
        ((g.temp_id.getD 0, realId) :: tempMap)

/-- Build the pending CONDITION inserts: leaves whose key resolved in the
individual-requirement cache (Python `if individual_id:` skips the rest),
with the parent resolved through the shared temporary-id map. -/
def buildIndividualInserts (cache : List (ReqKey × Nat))
    (tempMap : List (Nat × Nat)) (leaves : List PendingRow) :
    List (String × Option Nat × Nat × Nat) :=
  leaves.filterMap
    (fun r =>
      match r.individual_key with
      | some key =>
        match cache.lookup key with
        | some individualId =>
          some (r.course,
            (match r.parent_id with
             | some pt => tempMap.lookup pt
             | none => none),
            individualId, r.position)
        | none => none
      | none => none)

/-- Append the batched CONDITION rows with consecutive autoincrement ids. -/
def appendLeafRows (db : StoreDB)
    (inserts : List (String × Option Nat × Nat × Nat)) : StoreDB :=
  inserts.foldl
    (fun db ins =>
      { db with
        req_groups :=
          db.req_groups ++
            [⟨db.next_group_id, ins.1, ins.2.1, "CONDITION", some ins.2.2.1, ins.2.2.2⟩],
        next_group_id := db.next_group_id + 1 })
    db

/-- `_bulk_insert_req_groups`: split the descriptors into group rows
(`temp_id` set) and leaf rows, insert groups in the
roots-first-then-by-temp-id order, then insert the leaf rows in
`batch_size`-row `executemany` chunks (modelled as one statement per
chunk, with the rows appended together; intermediate uncommitted states
are not observable). -/
def bulkInsertReqGroups (faults : Nat → Option String)
    (reqGroups : List PendingRow) (batchSize : Nat) (st : StoreDB × Nat)
    (cache : List (ReqKey × Nat)) : Except String (StoreDB × Nat) :=
  let groups := reqGroups.filter (fun r => r.temp_id.isSome)
  let individualReqs :=
    reqGroups.filter (fun r => r.temp_id == none && r.individual_key.isSome)
  match insertGroupRows faults (sortLeB groupSortLe groups) st [] with
  | Except.error e => Except.error e
  | Except.ok (st1, tempMap) =>
    let individualInserts := buildIndividualInserts cache tempMap individualReqs
    if individualInserts.isEmpty then Except.ok st1
    else if batchSize = 0 then Except.error "range() arg 3 must not be zero"
    else
      match sqlSteps faults ((individualInserts.length + batchSize - 1) / batchSize) st1 with
      | Except.error e => Except.error e
      | Except.ok (db, tick) => Except.ok (appendLeafRows db individualInserts, tick)

/-- The per-course collection loop of `process_all_courses`, skipping
`None` documents and concatenating the per-course results. -/
def collectAllCourses (cache : List (ReqKey × Nat))
    (aiOutput : List (String × Option ReqDoc)) : List ReqKey × List PendingRow :=
  aiOutput.foldl
    (fun acc entry =>
      match entry.2 with
      | none => acc
      | some requirements =>
        let res := collectCourseOperations cache entry.1 requirements
        (acc.1 ++ res.1, acc.2 ++ res.2))
    ([], [])

/-- The body of `process_all_courses`'s `try` block: BEGIN, load the
cache, collect every course, bulk-insert the individual requirements and
the group rows, COMMIT.  Each statement may fail under the fault
schedule. -/
def runBulkTransaction (faults : Nat → Option String) (db : StoreDB)
    (aiOutput : List (String × Option ReqDoc)) (batchSize : Nat) :
    Except String StoreDB :=
  match sqlStep faults (db, 0) with
  | Except.error e => Except.error e
  | Except.ok st0 =>
    match sqlStep faults st0 with
    | Except.error e => Except.error e
    | Except.ok st1 =>
      let cache := loadIndividualReqsCache st1.1
      let collected := collectAllCourses cache aiOutput
      match bulkInsertIndividualReqs faults collected.1 st1 cache with
      | Except.error e => Except.error e
      | Except.ok (st2, cache1) =>
        match bulkInsertReqGroups faults collected.2 batchSize st2 cache1 with
        | Except.error e => Except.error e
        | Except.ok st3 =>
          match sqlStep faults st3 with
          | Except.error e => Except.error e
          | Except.ok st4 => Except.ok st4.1

/-- `process_all_courses`: on success the transaction commits and the new
store is visible; on any error the transaction is rolled back — the
visible store is the original one — and a `RuntimeError` naming the cause
is raised. -/
def processAllCourses (faults : Nat → Option String) (db : StoreDB)
    (aiOutput : List (String × Option ReqDoc)) (batchSize : Nat) :
    StoreDB × Option String :=
  match runBulkTransaction faults db aiOutput batchSize with
  | Except.ok db1 => (db1, none)
  | Except.error e => (db, some ("Bulk processing failed: " ++ e))

/-- An empty store whose autoincrement counters start at 1. -/
def emptyStore : StoreDB := ⟨[], [], 1, 1⟩

/-- A bulk-load batch of two courses, each `{AND, [LEVEL >= 2A]}`. -/
def twoCourseBatch : List (String × Option ReqDoc) :=
  [("AE 100", some (ReqDoc.group "AND" [ReqDoc.leaf "LEVEL" ">=" "2A"])),
   ("AE 200", some (ReqDoc.group "AND" [ReqDoc.leaf "LEVEL" ">=" "2A"]))]

/-- No injected faults. -/
def noFaults : Nat → Option String := fun _ => none

/-- The fault schedule for the C4 witness: the sixth statement of the
transaction — the insert of the second course's root group row — fails. -/
def faultAtSecondRootInsert : Nat → Option String :=
  fun n => if n = 5 then some "disk I/O error" else none

/-- A word character of the tokenizer's `\W+` split (ASCII `\w`). -/
def isWordChar (c : Char) : Bool :=
  c.isAlphanum || c == '_'

/-- Accumulate maximal runs of word characters. -/
def tokenizeAux : List Char → List Char → List String
  | [], [] => []
  | [], cur => [String.mk cur.reverse]
  | c :: cs, cur =>
    if isWordChar c then tokenizeAux cs (c :: cur)
    else if cur.isEmpty then tokenizeAux cs []
    else String.mk cur.reverse :: tokenizeAux cs []

/-- `CourseIndexer.tokenize`: lower-case, split on runs of non-word
characters, discard empty tokens. -/
def tokenize (text : String) : List String :=
  tokenizeAux (strLower text).data []

/-- The curated synonym map `course_synonyms` of `CourseSearcher`. -/
def courseSynonyms : List (String × List String) :=
  [("programming", ["coding", "software", "development"]),
   ("calculus", ["math", "mathematics", "derivatives", "integration"]),
   ("mechanics", ["physics", "dynamics", "statics", "forces"]),
   ("design", ["architecture", "planning", "modeling"]),
   ("analysis", ["evaluation", "assessment"]),
   ("systems", ["system", "infrastructure", "network"]),
   ("engineering", ["technical", "applied"]),
   ("data", ["statistics", "database"]),
   ("machine", ["automation", "robotics"]),
   ("ai", ["artificial intelligence", "machine learning"]),
   ("software", ["programming", "development"]),
   ("hardware", ["electronics", "circuits"]),
   ("network", ["communication", "connectivity"]),
   ("database", ["data", "storage"]),
   ("algorithm", ["computation", "logic"]),
   ("structure", ["structural", "framework"]),
   ("material", ["materials", "composition"]),
   ("energy", ["power", "electrical", "thermal"]),
   ("fluid", ["hydraulics", "flow"]),
   ("thermal", ["heat", "thermodynamics"]),
   ("control", ["automation", "regulation"]),
   ("signal", ["signals", "processing"]),
   ("circuit", ["electronics", "electrical"]),
   ("digital", ["computer", "binary"]),
   ("robotics", ["automation", "mechanical"]),
   ("biomedical", ["medical", "health"]),
   ("environmental", ["ecology", "sustainability"]),
   ("chemical", ["chemistry", "reactions"]),
   ("civil", ["infrastructure", "construction"]),
   ("electrical", ["electronics", "power"]),
   ("mechanical", ["machines", "dynamics"]),
   ("computer", ["computing", "software", "hardware"]),
   ("management", ["business", "leadership"]),
   ("economics", ["finance", "market"]),
   ("statistics", ["probability", "data"]),
   ("optimization", ["efficiency", "minimization"]),
   ("simulation", ["modeling", "virtual"]),
   ("security", ["cybersecurity", "protection"]),
   ("project", ["planning", "coordination"]),
   ("research", ["investigation", "study"])]

/-- Add one element to a Python-set-modelled-as-ordered-list (no-op when
already present). -/
def addToken (s : List String) (t : String) : List String :=
  if s.contains t then s else s ++ [t]

/-- `set.update`: add several elements. -/
def addTokens (s : List String) (ts : List String) : List String :=
  ts.foldl addToken s

/-- The body of `_expand_query`'s per-token loop: add the token's curated
synonyms, a naive plural/singular variant (strip a trailing "s", else
append "s"), and the fixed abbreviation expansions. -/
def expandStep (expanded : List String) (token : String) : List String :=
  let expanded :=
    match courseSynonyms.lookup token with
    | some synonyms => addTokens expanded synonyms
    | none => expanded
  let expanded :=
    if token.data.getLast? == some 's' then
      addToken expanded (String.mk token.data.dropLast)
    else addToken expanded (token ++ "s")
  if token = "artificial" then addToken expanded "ai"
  else if token = "intelligence" then addToken expanded "ai"
  else if token = "machine" then addToken expanded "ml"
  else if token = "learning" then addToken expanded "ml"
  else expanded

/-- `_expand_query`: start from the set of the query tokens and run the
per-token additions. -/
def expandQuery (tokens : List String) : List String :=
  tokens.foldl expandStep (addTokens [] tokens)

/-- One course's metadata from `courses.json`. -/
structure CourseMeta where
  code : String
  title : String
  description : String

/-- One ranked search result. -/
structure SearchResult where
  code : String
  title : String
  description : String
  score : ℚ

/-- The index artifacts loaded by `CourseSearcher`, with Python floats
modelled as rationals and `math.log` as the searcher's `lnQ` function (no
checked claim depends on the logarithm's values).  Inverted-index keys are
the lexicon's integer token ids (their `str()` form in the JSON file is an
encoding artifact). -/
structure CourseSearcher where
  lexicon : List (String × Nat)
  inverted_index : List (Nat × List (String × Nat))
  doc_lengths : List (String × Nat)
  courses : List CourseMeta
  lnQ : ℚ → ℚ

/-- `self.k1`. -/
def bm25_k1 : ℚ := 12 / 10

/-- `self.b`. -/
def bm25_b : ℚ := 3 / 4

/-- `self.title_weight`. -/
def title_weight : ℚ := 3

/-- `self.description_weight`. -/
def description_weight : ℚ := 1

/-- Python `token in field_content` raw substring test (query tokens are
never empty). -/
def substrContains (s t : String) : Bool :=
  if t = "" then true else (s.splitOn t).length > 1

/-- `course_map.get(course_code, {'code': .., 'title': '', 'description': ''})`. -/
def findCourseMeta (s : CourseSearcher) (code : String) : CourseMeta :=
  (s.courses.find? (fun c => c.code == code)).getD ⟨code, "", ""⟩

/-- `_calculate_field_score`: for each query token present in the field's
token multiset add `count * weight`, plus `weight * 0.5` more when the
token is a raw substring of the lowercased field text. -/
def calculateFieldScore (queryTokens : List String) (fieldContent : String)
    (weight : ℚ) : ℚ :=
  let fieldTokens := tokenize (strLower fieldContent)
  queryTokens.foldl
    (fun score token =>
      if fieldTokens.contains token then
        let score := score + (fieldTokens.count token : ℚ) * weight
        if substrContains (strLower fieldContent) token then
          score + weight * (1 / 2)
        else score
      else score)
    0

/-- `defaultdict(float)` accumulation preserving first-insertion order. -/
def addScore (scores : List (String × ℚ)) (code : String) (v : ℚ) :
    List (String × ℚ) :=
  if (scores.lookup code).isSome then
    scores.map (fun kv => if kv.1 == code then (kv.1, kv.2 + v) else kv)
  else scores ++ [(code, v)]

/-- The Python truthiness guard
`if eligible_course_codes and course_code not in eligible_course_codes`:
skip only when a non-empty collection was supplied and it misses the code. -/
def skipByEligibility (eligibleCourseCodes : Option (List String))
    (code : String) : Bool :=
  match eligibleCourseCodes with
  | some codes => !codes.isEmpty && !codes.contains code
  | none => false

/-- The body of `CourseSearcher.search`, parameterized by the
posting-skip predicate derived from the eligible-codes argument. -/
def searchCore (s : CourseSearcher) (query : String) (skip : String → Bool)
    (topN : Nat) : List SearchResult :=
  let originalTokens := tokenize query
  let expandedTokens := expandQuery originalTokens
  let tokenIds := expandedTokens.filterMap (fun token => s.lexicon.lookup token)
  let n : ℚ := s.doc_lengths.length
  let avgDocLength : ℚ :=
    if s.doc_lengths.length > 0 then
      (((s.doc_lengths.map (fun kv => kv.2)).sum : Nat) : ℚ) / n
    else 0
  let scores := tokenIds.foldl
    (fun scores tokenId =>
      let postings := (s.inverted_index.lookup tokenId).getD []
      if postings.length = 0 then scores
      else
        let df : ℚ := postings.length
        let idf := s.lnQ ((n - df + 1 / 2) / (df + 1 / 2) + 1)
        postings.foldl
          (fun scores posting =>
            if skip posting.1 then scores
            else
              let dl : ℚ := ((s.doc_lengths.lookup posting.1).getD 0 : Nat)
              let tf : ℚ := posting.2
              addScore scores posting.1
                (idf * (tf * (bm25_k1 + 1)) /
                  (tf + bm25_k1 * (1 - bm25_b + bm25_b * dl / avgDocLength))))
          scores)
    []
  let scores := scores.map
    (fun kv =>
      let course := findCourseMeta s kv.1
      let titleScore := calculateFieldScore originalTokens course.title title_weight
      let descriptionScore :=
        calculateFieldScore originalTokens course.description description_weight
      let total := kv.2 + titleScore + descriptionScore
      let matchingTerms :=
        (originalTokens.filter
          (fun token =>
            (tokenize (course.title ++ " " ++ course.description)).contains token)).length
      (kv.1, if matchingTerms > 1 then total * (1 + (matchingTerms : ℚ) * (1 / 5))
             else total))
  ((sortLeB (fun a b => decide (a.2 ≥ b.2)) scores).take topN).map
    (fun kv =>
      let course := findCourseMeta s kv.1
      ⟨kv.1, course.title, course.description, kv.2⟩)

/-- `CourseSearcher.search`. -/
def search (s : CourseSearcher) (query : String)
    (eligibleCourseCodes : Option (List String)) (topN : Nat) :
    List SearchResult :=
  searchCore s query (skipByEligibility eligibleCourseCodes) topN

/-- The `/search-courses` handler's search call (`api_server.py`):
`eligible_course_codes = data.get('eligible_course_codes', [])`, then
`searcher.search(query, eligible_course_codes=..., top_n=20)`. -/
def searchCoursesEndpoint (s : CourseSearcher) (query : String)
    (eligibleField : Option (List String)) : List SearchResult :=
  search s query (some (eligibleField.getD [])) 20

theorem mem_insertLeB (le : α → α → Bool) (x : α) (l : List α) (a : α) :
    a ∈ insertLeB le x l ↔ a = x ∨ a ∈ l := by
  induction l with
  | nil => simp [insertLeB]
  | cons y ys ih =>
    simp only [insertLeB]
    split
    · simp [List.mem_cons]
    · simp only [List.mem_cons, ih]
      tauto

theorem mem_sortLeB (le : α → α → Bool) (l : List α) (a : α) :
    a ∈ sortLeB le l ↔ a ∈ l := by
  induction l with
  | nil => simp [sortLeB]
  | cons x xs ih => simp [sortLeB, mem_insertLeB, ih]

theorem mem_getChildGroups (db : ReqDB) (parentId : Nat) (c : ReqGroupRow)
    (h : c ∈ getChildGroups db parentId) : c ∈ db.req_groups := by
  have := (mem_sortLeB _ _ c).mp h
  exact List.mem_of_mem_filter this

/-- C5: leaf evaluation is exactly: PROGRAM `=` iff `program = value`,
PROGRAM `!=` iff `program ≠ value`, LEVEL `=` iff `term = value`, LEVEL
`>=` iff `rank term ≥ rank value` under the fixed rank map (`1A ↦ 1` …
`4B ↦ 8`), MINOR `=` iff `minor = value`; every other type/operator
combination is not satisfied. -/
theorem evaluateCondition_cases (db : ReqDB) (individualId : Option Nat)
    (req : IndividualReqRow) (program level : String) (minor : Option String)
    (h : getIndividualRequirement db individualId = some req) :
    ((evaluateCondition db individualId program level minor = true) ↔
      ((req.type = "PROGRAM" ∧ req.operator = "=" ∧ program = req.value) ∨
       (req.type = "PROGRAM" ∧ req.operator = "!=" ∧ program ≠ req.value) ∨
       (req.type = "LEVEL" ∧ req.operator = "=" ∧ level = req.value) ∨
       (req.type = "LEVEL" ∧ req.operator = ">=" ∧
         levelToTerm level ≥ levelToTerm req.value) ∨
       (req.type = "MINOR" ∧ req.operator = "=" ∧ minor = some req.value)))
    ∧ levelToTerm "1A" = 1 ∧ levelToTerm "1B" = 2 ∧ levelToTerm "2A" = 3
    ∧ levelToTerm "2B" = 4 ∧ levelToTerm "3A" = 5 ∧ levelToTerm "3B" = 6
    ∧ levelToTerm "4A" = 7 ∧ levelToTerm "4B" = 8 := by
  refine ⟨?_, by decide, by decide, by decide, by decide, by decide,
    by decide, by decide, by decide⟩
  unfold evaluateCondition
  rw [h]
  dsimp only
  split_ifs
  all_goals
    simp_all [beq_iff_eq, bne_iff_ne, levelGreaterEqual, minorEquals, ge_iff_le]
  all_goals
    cases minor <;> simp_all

/-- C5 witness: a concrete one-row database, evaluated through the theorem. -/
theorem evaluateCondition_cases_witness :
    (getIndividualRequirement
        ⟨[], [], [⟨1, "LEVEL", ">=", "2B"⟩]⟩ (some 1) = some ⟨1, "LEVEL", ">=", "2B"⟩)
    ∧ (((evaluateCondition ⟨[], [], [⟨1, "LEVEL", ">=", "2B"⟩]⟩ (some 1)
          "Civil Engineering" "3A" none = true) ↔
        ((("LEVEL" : String) = "PROGRAM" ∧ (">=" : String) = "=" ∧
            ("Civil Engineering" : String) = "2B") ∨
         (("LEVEL" : String) = "PROGRAM" ∧ (">=" : String) = "!=" ∧
            ("Civil Engineering" : String) ≠ "2B") ∨
         (("LEVEL" : String) = "LEVEL" ∧ (">=" : String) = "=" ∧
            ("3A" : String) = "2B") ∨
         (("LEVEL" : String) = "LEVEL" ∧ (">=" : String) = ">=" ∧
            levelToTerm "3A" ≥ levelToTerm "2B") ∨
         (("LEVEL" : String) = "MINOR" ∧ (">=" : String) = "=" ∧
            (none : Option String) = some "2B")))
      ∧ levelToTerm "1A" = 1 ∧ levelToTerm "1B" = 2 ∧ levelToTerm "2A" = 3
      ∧ levelToTerm "2B" = 4 ∧ levelToTerm "3A" = 5 ∧ levelToTerm "3B" = 6
      ∧ levelToTerm "4A" = 7 ∧ levelToTerm "4B" = 8) :=
  ⟨by decide,
   evaluateCondition_cases ⟨[], [], [⟨1, "LEVEL", ">=", "2B"⟩]⟩ (some 1)
     ⟨1, "LEVEL", ">=", "2B"⟩ "Civil Engineering" "3A" none (by decide)⟩

/-- C1: on a well-formed store, a non-leaf group with no children
evaluates to true; otherwise the children are combined with the effective
combinator, which is forced to OR when the first child (by position) is a
CONDITION node and is the node's own stored AND/OR type otherwise
(AND = all children, OR = any child). -/
theorem evaluateRequirementGroup_combinator (db : ReqDB)
    (hwf : conditionNodesResolve db) (fuel : Nat) (group : ReqGroupRow)
    (program level : String) (minor : Option String)
    (hg : group.type = "AND" ∨ group.type = "OR") :
    evaluateRequirementGroup db (fuel + 1) group program level minor =
      match getChildGroups db group.id with
      | [] => some true
      | c :: cs =>
        if (if c.type = "CONDITION" then "OR" else group.type) = "AND" then
          evalListAll
            (fun child => evaluateRequirementGroup db fuel child program level minor)
            (c :: cs)
        else
          evalListAny
            (fun child => evaluateRequirementGroup db fuel child program level minor)
            (c :: cs) := by
  have hnc : ¬ group.type = "CONDITION" := by
    rcases hg with h | h <;> rw [h] <;> decide
  rw [evaluateRequirementGroup]
  rw [if_neg hnc]
  rcases hch : getChildGroups db group.id with _ | ⟨c, cs⟩
  · rfl
  · dsimp only
    by_cases hc : c.type = "CONDITION"
    · have hmem : c ∈ db.req_groups :=
        mem_getChildGroups db group.id c (hch ▸ List.mem_cons_self c cs)
      have hres := hwf c hmem hc
      rw [if_pos hc, if_pos hc, if_neg (show ¬("OR" : String) = "AND" by decide)]
      rcases hir : getIndividualRequirement db c.individual_id with _ | req
      · exact absurd (hir ▸ hres) (by simp)
      · rfl
    · rw [if_neg hc, if_neg hc]

/-- C1 witness: on `dbForcedOr` the AND root is evaluated as an OR (the
profile fails the LEVEL child but passes the PROGRAM child, and the group
is satisfied). -/
theorem evaluateRequirementGroup_combinator_witness :
    conditionNodesResolve dbForcedOr
    ∧ ((⟨1, "SE 101", none, "AND", none, 0⟩ : ReqGroupRow).type = "AND" ∨
       (⟨1, "SE 101", none, "AND", none, 0⟩ : ReqGroupRow).type = "OR")
    ∧ evaluateRequirementGroup dbForcedOr 2 ⟨1, "SE 101", none, "AND", none, 0⟩
        "Software Engineering" "1A" none = some true :=
  ⟨by decide, Or.inl rfl,
   evaluateRequirementGroup_combinator dbForcedOr (by decide) 1
     ⟨1, "SE 101", none, "AND", none, 0⟩ "Software Engineering" "1A" none
     (Or.inl rfl)⟩

theorem validateInputs_eq_false (validPrograms : List String)
    (program term : String) (minor : Option String)
    (h : (¬ ∃ p ∈ validPrograms, strLower program = strLower p) ∨
         term ∉ validLevels ∨
         (∃ m, minor = some m ∧ m.trim = "")) :
    validateInputs validPrograms program term minor = false := by
  unfold validateInputs
  split_ifs with h1 h2 h3 <;> try rfl
  exfalso
  rcases h with ha | hb | hc
  · exact ha (by simpa [List.any_eq_true, beq_iff_eq] using h1)
  · exact hb h2
  · rcases hc with ⟨m, hm, hme⟩
    subst hm
    simp [hme] at h3

/-- C7: for every invalid input — program with no case-insensitive match
among the valid programs, or term outside the eight levels, or a supplied
blank minor — `get_available_courses` returns the empty list instead of
erroring. -/
theorem getAvailableCourses_invalid_input (validPrograms : List String)
    (db : ReqDB) (fuel : Nat) (program term : String) (minor : Option String)
    (h : (¬ ∃ p ∈ validPrograms, strLower program = strLower p) ∨
         term ∉ validLevels ∨
         (∃ m, minor = some m ∧ m.trim = "")) :
    getAvailableCourses validPrograms db fuel program term minor = some [] := by
  unfold getAvailableCourses
  rw [if_neg]
  rw [validateInputs_eq_false validPrograms program term minor h]
  simp

/-- C7 witness: an unrecognized program against the seeded program list. -/
theorem getAvailableCourses_invalid_input_witness :
    ((¬ ∃ p ∈ ["Computer Engineering", "Software Engineering"],
        strLower "Basket Weaving" = strLower p) ∨
      ("2A" : String) ∉ validLevels ∨
      (∃ m, (none : Option String) = some m ∧ m.trim = ""))
    ∧ getAvailableCourses ["Computer Engineering", "Software Engineering"]
        ⟨[], [], []⟩ 0 "Basket Weaving" "2A" none = some [] :=
  ⟨Or.inl (by decide),
   getAvailableCourses_invalid_input _ _ 0 _ _ none (Or.inl (by decide))⟩

/-- C6: there is an input differing only in letter case from a seeded
engineering program name that passes input validation, while every
PROGRAM `=` leaf whose value is the correctly-cased catalog name evaluates
to false for it. -/
theorem validation_evaluation_case_mismatch :
    ∃ input catalog : String, catalog ∈ seededEngineeringPrograms ∧
      input ≠ catalog ∧ strLower input = strLower catalog ∧
      validateInputs seededEngineeringPrograms input "2A" none = true ∧
      ∀ (db : ReqDB) (individualId : Option Nat) (req : IndividualReqRow)
        (level : String) (minor : Option String),
        getIndividualRequirement db individualId = some req →
        req.type = "PROGRAM" → req.operator = "=" → req.value = catalog →
        evaluateCondition db individualId input level minor = false := by
  refine ⟨"computer engineering", "Computer Engineering", by decide, by decide,
    by decide, by decide, ?_⟩
  intro db individualId req level minor h ht ho hv
  unfold evaluateCondition
  rw [h]
  dsimp only
  rw [if_pos ht, if_pos ho, hv]
  decide

/-- C9 counterexample: reconstruction does not use the
forced-OR-only-when-first-child-is-a-condition rule — on `dbNestedGroup`
the root's first child is a group node, yet the reconstructed operator is
"OR", not the stored "AND". -/
theorem buildRequirementsTree_forcedOr_refuted :
    ¬ (∀ (db : ReqDB) (g : ReqGroupRow) (fuel : Nat) (operator : String)
         (conditions : List ReqTree) (c : ReqGroupRow) (cs : List ReqGroupRow),
        buildRequirementsTree db fuel g =
          some (some (ReqTree.group operator conditions)) →
        getChildGroups db g.id = c :: cs →
        ¬ c.type = "CONDITION" →
        operator = g.type) := by
  intro h
  have h2 := h dbNestedGroup ⟨1, "ECE 200", none, "AND", none, 0⟩ 3 "OR"
    [ReqTree.group "OR" [ReqTree.condition "LEVEL" ">=" "2A"]]
    ⟨2, "ECE 200", some 1, "OR", none, 0⟩ [] rfl (by decide) (by decide)
  exact absurd h2 (by decide)

/-- C9 amended: for every stored node whose type is AND or OR, whenever
reconstruction produces a group, its operator is "OR" — unconditionally,
whatever the children are — and a course with no stored root rebuilds to
the absent document. -/
theorem buildRequirementsTree_operator_always_or (db : ReqDB) (fuel : Nat)
    (g : ReqGroupRow) (hg : g.type = "AND" ∨ g.type = "OR") :
    (∀ (operator : String) (conditions : List ReqTree),
      buildRequirementsTree db fuel g =
        some (some (ReqTree.group operator conditions)) →
      operator = "OR")
    ∧ ∀ course, getRootRequirementGroup db course = none →
        getCourseRequirements db fuel course = some none := by
  constructor
  · intro operator conditions heq
    match fuel with
    | 0 => simp [buildRequirementsTree] at heq
    | fuel + 1 =>
      have hnc : ¬ g.type = "CONDITION" := by
        rcases hg with h | h <;> rw [h] <;> decide
      rw [buildRequirementsTree, if_neg hnc] at heq
      rcases hch : getChildGroups db g.id with _ | ⟨c, cs⟩ <;>
          rw [hch] at heq <;> dsimp only at heq
      · exact absurd heq (by simp)
      · rcases hfold : (c :: cs).foldl
            (fun acc child =>
              match acc with
              | none => none
              | some conditions =>
                match buildRequirementsTree db fuel child with
                | none => none
                | some (some tree) => some (conditions ++ [tree])
                | some none => some conditions)
            (some ([] : List ReqTree)) with _ | ⟨_ | ⟨t, ts⟩⟩ <;>
          rw [hfold] at heq <;> dsimp only at heq
        · exact absurd heq (by simp)
        · exact absurd heq (by simp)
        · rw [if_pos hg] at heq
          injection heq with h1
          injection h1 with h2
          injection h2 with h3 h4
          exact h3.symm
  · intro course hroot
    unfold getCourseRequirements
    rw [hroot]

/-- C9 amended-claim witness: the concrete `dbNestedGroup` root. -/
theorem buildRequirementsTree_operator_always_or_witness :
    ((⟨1, "ECE 200", none, "AND", none, 0⟩ : ReqGroupRow).type = "AND" ∨
     (⟨1, "ECE 200", none, "AND", none, 0⟩ : ReqGroupRow).type = "OR")
    ∧ ((∀ (operator : String) (conditions : List ReqTree),
          buildRequirementsTree dbNestedGroup 2 ⟨1, "ECE 200", none, "AND", none, 0⟩ =
            some (some (ReqTree.group operator conditions)) →
          operator = "OR")
       ∧ ∀ course, getRootRequirementGroup dbNestedGroup course = none →
           getCourseRequirements dbNestedGroup 2 course = some none) :=
  ⟨Or.inl rfl,
   buildRequirementsTree_operator_always_or dbNestedGroup 2
     ⟨1, "ECE 200", none, "AND", none, 0⟩ (Or.inl rfl)⟩

/-- C3: validation of the null document.  The code rejects it — the
`isinstance(requirements, dict)` check precedes the `requirements is None`
check, so `None` returns `False` and the "null is valid" branch is dead
code — contradicting the code's own comment and the spec. -/
theorem validateRequirementsStructure_null (validPrograms : List String)
    (fuel : Nat) :
    validateRequirementsStructure validPrograms fuel Json.null = false := rfl

/-- C2: loading a two-course batch links a child row to the other course's
parent.  Both roots receive the colliding temporary id 1000000, the shared
temporary-id map keeps only the last root's real id (2), and both
CONDITION rows — including course "AE 100"'s — end up with `parent_id = 2`,
the root row of course "AE 200". -/
theorem bulkLoad_crossCourse_parent_link :
    ((processAllCourses noFaults emptyStore twoCourseBatch 1000).2 = none)
    ∧ ((processAllCourses noFaults emptyStore twoCourseBatch 1000).1.req_groups =
        [⟨1, "AE 100", none, "AND", none, 0⟩,
         ⟨2, "AE 200", none, "AND", none, 0⟩,
         ⟨3, "AE 100", some 2, "CONDITION", some 1, 0⟩,
         ⟨4, "AE 200", some 2, "CONDITION", some 1, 0⟩])
    ∧ ∃ child parent : ReqGroupRow,
        child ∈ (processAllCourses noFaults emptyStore twoCourseBatch 1000).1.req_groups ∧
        parent ∈ (processAllCourses noFaults emptyStore twoCourseBatch 1000).1.req_groups ∧
        child.parent_id = some parent.id ∧
        ¬ child.course = parent.course := by
  refine ⟨by decide, by decide,
    ⟨3, "AE 100", some 2, "CONDITION", some 1, 0⟩,
    ⟨2, "AE 200", none, "AND", none, 0⟩,
    by decide, by decide, by decide, by decide⟩

/-- C4: whenever one bulk-load transaction reports an error, the visible
store equals the store from before the transaction — no rows of the batch
survive — and the surfaced message names the cause behind the fixed
"Bulk processing failed: " prefix. -/
theorem processAllCourses_rollback (faults : Nat → Option String)
    (db : StoreDB) (aiOutput : List (String × Option ReqDoc)) (batchSize : Nat)
    (e : String)
    (h : (processAllCourses faults db aiOutput batchSize).2 = some e) :
    (processAllCourses faults db aiOutput batchSize).1 = db ∧
    ∃ cause, e = "Bulk processing failed: " ++ cause := by
  unfold processAllCourses at h ⊢
  rcases hr : runBulkTransaction faults db aiOutput batchSize with e1 | db1
  · rw [hr] at h
    exact ⟨rfl, e1, (Option.some.inj h).symm⟩
  · rw [hr] at h
    exact Option.noConfusion h

/-- C4 witness: the injected mid-batch failure leaves the store empty and
surfaces the named cause. -/
theorem processAllCourses_rollback_witness :
    ((processAllCourses faultAtSecondRootInsert emptyStore twoCourseBatch 1000).2 =
      some "Bulk processing failed: disk I/O error")
    ∧ ((processAllCourses faultAtSecondRootInsert emptyStore twoCourseBatch 1000).1 =
        emptyStore
      ∧ ∃ cause, "Bulk processing failed: disk I/O error" =
          "Bulk processing failed: " ++ cause) :=
  ⟨by decide,
   processAllCourses_rollback faultAtSecondRootInsert emptyStore twoCourseBatch 1000
     "Bulk processing failed: disk I/O error" (by decide)⟩

theorem mem_addToken_of_mem (s : List String) (t x : String) (h : x ∈ s) :
    x ∈ addToken s t := by
  unfold addToken
  split
  · exact h
  · exact List.mem_append_left _ h

theorem mem_addToken_self (s : List String) (t : String) : t ∈ addToken s t := by
  by_cases hc : s.contains t
  · simp only [addToken, if_pos hc]
    exact List.elem_iff.mp hc
  · simp only [addToken]
    rw [if_neg hc]
    simp

theorem mem_addTokens_of_mem_left (ts : List String) (s : List String)
    (x : String) (h : x ∈ s) : x ∈ addTokens s ts := by
  induction ts generalizing s with
  | nil => exact h
  | cons a as ih => exact ih _ (mem_addToken_of_mem _ _ _ h)

theorem mem_addTokens_of_mem_right (ts : List String) (s : List String)
    (x : String) (h : x ∈ ts) : x ∈ addTokens s ts := by
  induction ts generalizing s with
  | nil => cases h
  | cons a as ih =>
    rcases List.mem_cons.mp h with rfl | h1
    · exact mem_addTokens_of_mem_left as _ _ (mem_addToken_self _ _)
    · exact ih _ h1

theorem mem_expandStep (acc : List String) (token x : String) (hx : x ∈ acc) :
    x ∈ expandStep acc token := by
  unfold expandStep
  have h1 : x ∈ (match courseSynonyms.lookup token with
      | some synonyms => addTokens acc synonyms
      | none => acc) := by
    cases courseSynonyms.lookup token with
    | none => exact hx
    | some synonyms => exact mem_addTokens_of_mem_left _ _ _ hx
  split_ifs <;> first
    | exact mem_addToken_of_mem _ _ _ (mem_addToken_of_mem _ _ _ h1)
    | exact mem_addToken_of_mem _ _ _ h1

theorem mem_foldl_expandStep (l : List String) (init : List String)
    (x : String) (h : x ∈ init) : x ∈ l.foldl expandStep init := by
  induction l generalizing init with
  | nil => exact h
  | cons b bs ih => exact ih _ (mem_expandStep _ _ _ h)

/-- C8: query expansion is extensive — every original query token is a
member of `_expand_query`'s output. -/
theorem expandQuery_superset (tokens : List String) (t : String)
    (h : t ∈ tokens) : t ∈ expandQuery tokens :=
  mem_foldl_expandStep tokens (addTokens [] tokens) t
    (mem_addTokens_of_mem_right tokens [] t h)

/-- C8 witness: a concrete query. -/
theorem expandQuery_superset_witness :
    ("networks" : String) ∈ ["thermal", "networks"]
    ∧ ("networks" : String) ∈ expandQuery ["thermal", "networks"] :=
  ⟨by decide, expandQuery_superset ["thermal", "networks"] "networks" (by decide)⟩

/-- C10: supplying the empty eligible-code list applies no restriction —
`search(query, [])` equals `search(query)` for every searcher state, query
and result size, because the truthiness guard skips the filter on an empty
collection; consequently the `/search-courses` handler, which defaults a
missing `eligible_course_codes` field to `[]`, searches unrestricted. -/
theorem search_empty_eligible_unrestricted (s : CourseSearcher)
    (query : String) (topN : Nat) :
    search s query (some []) topN = search s query none topN
    ∧ searchCoursesEndpoint s query none = search s query none 20 := by
  have hskip : skipByEligibility (some []) = skipByEligibility none := by
    funext code
    rfl
  constructor
  · unfold search
    rw [hskip]
  · unfold searchCoursesEndpoint
    show search s query (some []) 20 = search s query none 20
    unfold search
    rw [hskip]

end CourseRec
